import Mathlib

/-!
Shallow embedding of `src/lib/devices/vacuum.js` (miio Mi Robot Vacuum driver):
the `error_code` and `state` property mappers, the state projector
`propertyUpdated`, the snapshot loader `loadProperties`, the composite command
`activateCharging` (with `pause` / `deactivateCleaning`), and `getHistoryForDay`.
JavaScript values are modelled by an explicit `Value` type; effectful methods
are modelled as functions that return the ordered trace of the external effects
they perform together with their result.
-/

namespace MiioVacuum

/-- An error code carried in a structured error object: the `error_code` mapper
produces numeric codes, while the state projector produces the string codes
`"charging-error"` and `"charger-offline"`. -/
inductive ErrCode where
  | num (n : Int)
  | str (s : String)
  deriving DecidableEq, Repr

/-- The structured `{code, message}` error object. -/
structure ErrObj where
  code : ErrCode
  message : String
  deriving DecidableEq, Repr

/-- JavaScript values as this module uses them: `null`, `undefined`, strings,
integral numbers, and structured error objects. -/
inductive Value where
  | null
  | undef
  | str (s : String)
  | int (n : Int)
  | err (e : ErrObj)
  deriving DecidableEq, Repr

/-- The mapper of `defineProperty("error_code", ...)` (vacuum.js lines 37-52):
code `0` means no error (`null`); any other code becomes
`{code: e, message: "Unknown error " + e}`. -/
def errorCodeMapper (e : Int) : Value :=
  if e = 0 then Value.null
  else Value.err ⟨ErrCode.num e, "Unknown error " ++ toString e⟩

/-- The mapper of `defineProperty("state", ...)` (vacuum.js lines 54-94): a
switch over the known raw codes, falling back to `"unknown-" + s`. -/
def stateMapper (s : Int) : String :=
  if s = 1 then "initiating"
  else if s = 2 then "charger-offline"
  else if s = 3 then "waiting"
  else if s = 5 then "cleaning"
  else if s = 6 then "returning"
  else if s = 8 then "charging"
  else if s = 9 then "charging-error"
  else if s = 10 then "paused"
  else if s = 11 then "spot-cleaning"
  else if s = 12 then "error"
  else if s = 13 then "shutting-down"
  else if s = 14 then "updating"
  else if s = 15 then "docking"
  else if s = 16 then "going-to-location"
  else if s = 17 then "zone-cleaning"
  else if s = 18 then "room-cleaning"
  else if s = 22 then "dust-collection"
  else if s = 100 then "full"
  else "unknown-" ++ toString s

/-- The raw state codes handled by a case of the `state` switch. -/
def definedStateCodes : List Int :=
  [1, 2, 3, 5, 6, 8, 9, 10, 11, 12, 13, 14, 15, 16, 17, 18, 22, 100]

/-- The external effects `propertyUpdated` can perform: the capability update
hooks and the forwarding to the base class handler. -/
inductive Action where
  | updateCharging (b : Bool)
  | updateCleaning (b : Bool)
  | updateError (v : Value)
  | updateFanSpeed (v : Value)
  | superPropertyUpdated (key : String) (value : Value) (oldValue : Value)
  deriving DecidableEq, Repr

/-- Whether an action is the forwarding to the base class handler. -/
def Action.isSuper : Action → Bool
  | .superPropertyUpdated _ _ _ => true
  | _ => false

/-- The synthetic error raised when the state becomes `"charging-error"`. -/
def chargingErrorValue : Value :=
  Value.err ⟨ErrCode.str "charging-error", "Error during charging"⟩

/-- The synthetic error raised when the state becomes `"charger-offline"`. -/
def chargerOfflineValue : Value :=
  Value.err ⟨ErrCode.str "charger-offline", "Charger is offline"⟩

/-- The state projector `propertyUpdated(key, value, oldValue)` (vacuum.js
lines 141-186), as the ordered list of effects it performs. `errorProp` is the
current value of the device's `error` property, read by `this.property("error")`
in the `"error"` branch. The JS `switch` over strictly-equal string cases is
translated to an if-chain; the duplicated dead `"zone-cleaning"` case label is
not replicated. The base class handler is always invoked last. -/
def propertyUpdated (errorProp : Value) (key : String) (value oldValue : Value) :
    List Action :=
  (if key = "state" then
    Action.updateCharging (decide (value = Value.str "charging")) ::
      (if value = Value.str "cleaning" ∨ value = Value.str "spot-cleaning" ∨
          value = Value.str "zone-cleaning" ∨ value = Value.str "room-cleaning" then
        [Action.updateCleaning true]
      else if value = Value.str "paused" then
        []
      else if value = Value.str "error" then
        [Action.updateError errorProp]
      else if value = Value.str "charging-error" then
        [Action.updateError chargingErrorValue]
      else if value = Value.str "charger-offline" then
        [Action.updateError chargerOfflineValue]
      else
        [Action.updateCleaning false])
  else if key = "fanSpeed" then
    [Action.updateFanSpeed value]
  else
    [])
  ++ [Action.superPropertyUpdated key value oldValue]

/-- The state values named by a row of the §4.3 rule table. -/
def namedStateValues : List Value :=
  [Value.str "charging", Value.str "cleaning", Value.str "spot-cleaning",
   Value.str "zone-cleaning", Value.str "room-cleaning", Value.str "paused",
   Value.str "error", Value.str "charging-error", Value.str "charger-offline"]

/-- The state values whose rule-table row sets the cleaning flag to true. -/
def cleaningStateValues : List Value :=
  [Value.str "cleaning", Value.str "spot-cleaning", Value.str "zone-cleaning",
   Value.str "room-cleaning"]

/-- A raw object returned by a device query: named fields with values. Field
lookup yields `none` for an absent field, i.e. JavaScript `undefined`. -/
abbrev RawObj : Type := List (String × Value)

/-- A semantic snapshot: semantic property names with their values, in the
order they were pushed. -/
abbrev Snapshot : Type := List (String × Value)

/-- A property definition of the Definition Table: raw key, semantic name and
value transform. -/
structure PropDef where
  rawKey : String
  name : String
  mapper : Value → Value

/-- Modelled from the spec: `_pushProperty` is defined in the base device class
(`lib/device.js`, not under `src/`). Per §2/§4.2 it applies the key's transform
from the Definition Table and stores the result under the semantic name; a key
with no definition passes through unchanged. -/
def pushProperty (defs : List PropDef) (mapped : Snapshot) (prop : String)
    (value : Value) : Snapshot :=
  match defs.find? (fun d => d.rawKey = prop) with
  | some d => mapped ++ [(d.name, d.mapper value)]
  | none => mapped ++ [(prop, value)]

/-- The snapshot loader `loadProperties(props)` (vacuum.js lines 401-422).
`rev` is `this._reversePropertyDefinitions` (semantic name to raw key; the JS
`|| key` fallback is `Option.getD`); `fetch` gives the outcome of one remote
call by method name. The method performs the two calls `"get_status"` and
`"get_consumable"` (combined with `Promise.all`, which rejects as a whole if
either rejects), then merges per requested key, preferring the status source,
falling back to the consumable source when the status value is `undefined`.
The first component is the ordered trace of remote method names called. -/
def loadProperties (defs : List PropDef) (rev : String → Option String)
    (fetch : String → Except String RawObj) (props : List String) :
    List String × Except String Snapshot :=
  let rawProps := props.map fun key => (rev key).getD key
  let calls := ["get_status", "get_consumable"]
  match fetch "get_status", fetch "get_consumable" with
  | Except.ok status, Except.ok consumables =>
      (calls, Except.ok (rawProps.foldl (fun mapped prop =>
        let v1 := (List.lookup prop status).getD Value.undef
        let v := if v1 = Value.undef
          then (List.lookup prop consumables).getD Value.undef
          else v1
        pushProperty defs mapped prop v) []))
  | Except.error e, _ => (calls, Except.error e)
  | Except.ok _, Except.error e => (calls, Except.error e)

/-- The raw result of a remote call, as seen by the generic result validator:
whether the device signalled success, plus an opaque payload. -/
structure CallResult where
  success : Bool
  payload : Int
  deriving DecidableEq, Repr

/-- Modelled from the spec: `checkResult` lives in `lib/checkResult.js`, not
under `src/`. Per §4.4/§6 it is the generic result validator: it returns the
raw result unchanged on success and raises when the device signals a
non-success result code. -/
def checkResult (r : CallResult) : Except String CallResult :=
  if r.success then Except.ok r else Except.error "Could not perform operation"

/-- One remote call followed by the generic `checkResult` validation, i.e. the
`this.call(method, ...).then(checkResult)` pattern. `env` gives the transport
outcome of each method. -/
def doCall (env : String → Except String CallResult) (method : String) :
    Except String CallResult :=
  match env method with
  | Except.ok r => checkResult r
  | Except.error e => Except.error e

/-- External effects of a command method: a remote call (with its refresh
directive) or a timer wait. -/
inductive Event where
  | call (method : String) (refresh : List String) (refreshDelay : Nat)
  | wait (ms : Nat)
  deriving DecidableEq, Repr

/-- `pause()` (vacuum.js lines 247-252): call `"app_pause"` with a
`{refresh: ["state"], refreshDelay: 1000}` directive, then `checkResult`. -/
def pause (env : String → Except String CallResult) :
    List Event × Except String CallResult :=
  ([Event.call "app_pause" ["state"] 1000], doCall env "app_pause")

/-- `deactivateCleaning()` (vacuum.js lines 257-262): call `"app_stop"` with a
`{refresh: ["state"], refreshDelay: 1000}` directive, then `checkResult`. -/
def deactivateCleaning (env : String → Except String CallResult) :
    List Event × Except String CallResult :=
  ([Event.call "app_stop" ["state"] 1000], doCall env "app_stop")

/-- `activateCharging()` (vacuum.js lines 267-281): `pause()`, with
`deactivateCleaning()` as the `catch` fallback; once that chain resolved, wait
1000ms, then call `"app_charge"` and validate its result with `checkResult`.
A rejection of the fallback rejects the whole chain before the wait. -/
def activateCharging (env : String → Except String CallResult) :
    List Event × Except String CallResult :=
  let p := pause env
  match p.2 with
  | Except.ok _ =>
      (p.1 ++ [Event.wait 1000, Event.call "app_charge" ["state"] 1000],
       doCall env "app_charge")
  | Except.error _ =>
      let d := deactivateCleaning env
      match d.2 with
      | Except.ok _ =>
          (p.1 ++ d.1 ++ [Event.wait 1000, Event.call "app_charge" ["state"] 1000],
           doCall env "app_charge")
      | Except.error e => (p.1 ++ d.1, Except.error e)

/-- The argument of `getHistoryForDay`: either a JS `Date` (carrying its
epoch-milliseconds timestamp) or a raw epoch-seconds number. -/
inductive DayValue where
  | date (ms : Int)
  | epoch (seconds : Int)
  deriving DecidableEq, Repr

/-- One entry of a per-day history record (vacuum.js lines 384-397). `start`
and `stop` are JS `Date`s represented by their epoch-milliseconds timestamps;
`area` is square meters, raw value divided by 1000000. -/
structure HistoryEntry where
  start : Int
  stop : Int
  duration : Int
  area : Rat
  complete : Bool
  deriving DecidableEq, Repr

/-- The result object of `getHistoryForDay`: the `day` field echoes the
argument as given, `history` holds the mapped entries. -/
structure HistoryResult where
  day : DayValue
  history : List HistoryEntry
  deriving DecidableEq, Repr

/-- The remote request issued by `getHistoryForDay`. -/
structure CleanRecordRequest where
  method : String
  params : List Int
  deriving DecidableEq, Repr

/-- `getHistoryForDay(day)` (vacuum.js lines 377-399): a `Date` argument is
converted to epoch seconds with `Math.floor(getTime() / 1000)` (floor division
on integers); the request is `get_clean_record` with that single parameter;
`fetch` gives the device's reply (a list of numeric rows) per record number.
Returns the request together with the result object. -/
def getHistoryForDay (fetch : Int → List (List Int)) (day : DayValue) :
    CleanRecordRequest × HistoryResult :=
  let record : Int :=
    match day with
    | DayValue.date ms => Int.fdiv ms 1000
    | DayValue.epoch s => s
  (⟨"get_clean_record", [record]⟩,
   { day := day
     history := (fetch record).map fun (data : List Int) =>
       { start := data.getD 0 0 * 1000
         stop := data.getD 1 0 * 1000
         duration := data.getD 2 0
         area := (data.getD 3 0 : Rat) / 1000000
         complete := decide (data.getD 5 0 = 1) } })

/-- An empty reverse-definition table, used to instantiate theorems. -/
def emptyRev : String → Option String := fun _ => none

/-- A fetch environment whose `"get_status"` call fails at the transport. -/
def statusFailFetch : String → Except String RawObj :=
  fun m => if m = "get_status" then Except.error "status unreachable" else Except.ok []

/-- A command environment in which every remote call succeeds. -/
def allOkEnv : String → Except String CallResult := fun _ => Except.ok ⟨true, 0⟩

/-- A concrete device reply for `get_clean_record`: one completed run. -/
def sampleCleanRecords : Int → List (List Int) :=
  fun _ => [[1614071000, 1614073000, 2000, 26000000, 0, 1]]

/-- C1 counterexample: the claim says a `"state"` notification with new value
`"error"` sets the cleaning flag to false, but `propertyUpdated` performs no
cleaning update at all in that branch (the switch case only raises the error
update), so `updateCleaning(false)` is not among the performed effects. -/
theorem C1_counterexample :
    Action.updateCleaning false ∉
      propertyUpdated (Value.err ⟨ErrCode.num 7, "Unknown error 7"⟩) "state"
        (Value.str "error") (Value.str "cleaning") := by
  decide

/-- C1 (amended): for the state values `"error"`, `"charging-error"` and
`"charger-offline"`, `propertyUpdated` sets the charging flag to false, leaves
the cleaning flag unchanged (no cleaning update is performed), and raises an
error update — with the current `error` property value for `"error"`, with
`{code:"charging-error", message:"Error during charging"}` for
`"charging-error"`, and with `{code:"charger-offline", message:"Charger is
offline"}` for `"charger-offline"` — before forwarding to the base handler. -/
theorem C1_error_states_amended (errorProp old : Value) :
    propertyUpdated errorProp "state" (Value.str "error") old =
      [Action.updateCharging false, Action.updateError errorProp,
       Action.superPropertyUpdated "state" (Value.str "error") old] ∧
    propertyUpdated errorProp "state" (Value.str "charging-error") old =
      [Action.updateCharging false, Action.updateError chargingErrorValue,
       Action.superPropertyUpdated "state" (Value.str "charging-error") old] ∧
    propertyUpdated errorProp "state" (Value.str "charger-offline") old =
      [Action.updateCharging false, Action.updateError chargerOfflineValue,
       Action.superPropertyUpdated "state" (Value.str "charger-offline") old] :=
  ⟨rfl, rfl, rfl⟩

/-- C2: the `state` transform maps every raw code of the defined set to
exactly the table label of §4.1, and every other integer code to
`"unknown-" + code`; being a total function it never fails. -/
theorem C2_state_transform :
    (∀ s : Int, s ∉ definedStateCodes → stateMapper s = "unknown-" ++ toString s) ∧
    stateMapper 1 = "initiating" ∧ stateMapper 2 = "charger-offline" ∧
    stateMapper 3 = "waiting" ∧ stateMapper 5 = "cleaning" ∧
    stateMapper 6 = "returning" ∧ stateMapper 8 = "charging" ∧
    stateMapper 9 = "charging-error" ∧ stateMapper 10 = "paused" ∧
    stateMapper 11 = "spot-cleaning" ∧ stateMapper 12 = "error" ∧
    stateMapper 13 = "shutting-down" ∧ stateMapper 14 = "updating" ∧
    stateMapper 15 = "docking" ∧ stateMapper 16 = "going-to-location" ∧
    stateMapper 17 = "zone-cleaning" ∧ stateMapper 18 = "room-cleaning" ∧
    stateMapper 22 = "dust-collection" ∧ stateMapper 100 = "full" := by
  refine ⟨?_, rfl, rfl, rfl, rfl, rfl, rfl, rfl, rfl, rfl, rfl, rfl, rfl, rfl,
    rfl, rfl, rfl, rfl, rfl⟩
  intro s h
  simp only [definedStateCodes, List.mem_cons, List.not_mem_nil, or_false] at h
  push_neg at h
  obtain ⟨h1, h2, h3, h4, h5, h6, h7, h8, h9, h10, h11, h12, h13, h14, h15, h16,
    h17, h18⟩ := h
  simp [stateMapper, h1, h2, h3, h4, h5, h6, h7, h8, h9, h10, h11, h12, h13, h14,
    h15, h16, h17, h18]

/-- C2 witness: the undefined raw code `4` maps to the fallback label. -/
theorem C2_state_transform_witness : stateMapper 4 = "unknown-" ++ toString (4 : Int) :=
  C2_state_transform.1 4 (by decide)

/-- C5: on a `"state"` notification, the cleaning flag is set to true exactly
when the new value is one of `"cleaning"`, `"spot-cleaning"`,
`"zone-cleaning"`, `"room-cleaning"`; for `"paused"` no cleaning update is
performed at all (explicit no-op: only the charging update and the base
forwarding happen); and for any value not named by a row of the §4.3 rule
table the cleaning flag is set to false. -/
theorem C5_cleaning_flag (errorProp value old : Value) :
    (Action.updateCleaning true ∈ propertyUpdated errorProp "state" value old ↔
      value ∈ cleaningStateValues) ∧
    (value = Value.str "paused" →
      propertyUpdated errorProp "state" value old =
        [Action.updateCharging false,
         Action.superPropertyUpdated "state" value old]) ∧
    (value ∉ namedStateValues →
      Action.updateCleaning false ∈ propertyUpdated errorProp "state" value old) := by
  refine ⟨?_, ?_, ?_⟩
  · simp only [propertyUpdated, cleaningStateValues]
    split_ifs with h1 h2 h3 h4 h5 <;> simp_all
  · intro hv
    subst hv
    rfl
  · intro hn
    simp only [namedStateValues, List.mem_cons, List.not_mem_nil, or_false] at hn
    push_neg at hn
    obtain ⟨n1, n2, n3, n4, n5, n6, n7, n8, n9⟩ := hn
    simp [propertyUpdated, n2, n3, n4, n5, n6, n7, n8, n9]

/-- C5 witness: the unnamed state value `"returning"` sets the cleaning flag
to false. -/
theorem C5_cleaning_flag_witness :
    Action.updateCleaning false ∈
      propertyUpdated Value.null "state" (Value.str "returning") Value.null :=
  (C5_cleaning_flag Value.null (Value.str "returning") Value.null).2.2 (by decide)

/-- C6: on every `"state"` notification the very first effect is the charging
update with exactly the boolean `value == "charging"`, whatever branch of the
rule table runs; the forwarding to the base handler is the last effect; and no
effect before it is a base-handler forwarding, i.e. all derived-effect rules
run before the generic passthrough. -/
theorem C6_charging_invariant (errorProp value old : Value) :
    (propertyUpdated errorProp "state" value old).head? =
      some (Action.updateCharging (decide (value = Value.str "charging"))) ∧
    (propertyUpdated errorProp "state" value old).getLast? =
      some (Action.superPropertyUpdated "state" value old) ∧
    (propertyUpdated errorProp "state" value old).dropLast.all
      (fun a => !a.isSuper) = true := by
  refine ⟨rfl, ?_, ?_⟩ <;>
    (simp only [propertyUpdated]; split_ifs <;> rfl)

/-- C8: the `error_code` transform maps raw code 0 to `null` and every nonzero
raw code `e` to `{code: e, message: "Unknown error " + e}`; the code field is
always the raw code. -/
theorem C8_error_code_transform :
    errorCodeMapper 0 = Value.null ∧
    ∀ e : Int, e ≠ 0 →
      errorCodeMapper e = Value.err ⟨ErrCode.num e, "Unknown error " ++ toString e⟩ := by
  refine ⟨rfl, ?_⟩
  intro e he
  simp [errorCodeMapper, he]

/-- C8 witness: raw error code 7 yields the structured pair with code 7. -/
theorem C8_error_code_transform_witness :
    errorCodeMapper 7 = Value.err ⟨ErrCode.num 7, "Unknown error " ++ toString (7 : Int)⟩ :=
  C8_error_code_transform.2 7 (by decide)

/-- C10: a notification whose key is neither `"state"` nor `"fanSpeed"`
triggers no capability update hook and no derived-flag change: the only effect
is the unchanged forwarding to the generic base handler. -/
theorem C10_frame (errorProp : Value) (key : String) (value old : Value)
    (hks : key ≠ "state") (hkf : key ≠ "fanSpeed") :
    propertyUpdated errorProp key value old =
      [Action.superPropertyUpdated key value old] := by
  simp [propertyUpdated, hks, hkf]

/-- C10 witness: a `batteryLevel` notification only forwards to the base
handler. -/
theorem C10_frame_witness :
    propertyUpdated Value.null "batteryLevel" (Value.int 80) Value.null =
      [Action.superPropertyUpdated "batteryLevel" (Value.int 80) Value.null] :=
  C10_frame Value.null "batteryLevel" (Value.int 80) Value.null (by decide) (by decide)

/-- C3: one `loadProperties` call performs exactly one `"get_status"` fetch
and exactly one `"get_consumable"` fetch — its remote-call trace is exactly
those two methods — for every requested key sequence, including the empty one,
and never one fetch per key. -/
theorem C3_batched_fetch (defs : List PropDef) (rev : String → Option String)
    (fetch : String → Except String RawObj) (props : List String) :
    (loadProperties defs rev fetch props).1 = ["get_status", "get_consumable"] ∧
    (loadProperties defs rev fetch props).1.count "get_status" = 1 ∧
    (loadProperties defs rev fetch props).1.count "get_consumable" = 1 ∧
    (loadProperties defs rev fetch props).1.length = 2 := by
  have h : (loadProperties defs rev fetch props).1 = ["get_status", "get_consumable"] := by
    unfold loadProperties
    cases fetch "get_status" <;> cases fetch "get_consumable" <;> rfl
  refine ⟨h, ?_, ?_, ?_⟩ <;> rw [h] <;> rfl

/-- C7: if the status fetch fails, the whole `loadProperties` fails with that
failure; if the status fetch succeeds but the consumable fetch fails, the
whole call fails with that failure; and a merged snapshot is produced only
when both fetches succeeded — no partial snapshot from a single source. -/
theorem C7_fetch_failure (defs : List PropDef) (rev : String → Option String)
    (fetch : String → Except String RawObj) (props : List String) :
    (∀ e, fetch "get_status" = Except.error e →
      (loadProperties defs rev fetch props).2 = Except.error e) ∧
    (∀ e s, fetch "get_status" = Except.ok s →
      fetch "get_consumable" = Except.error e →
      (loadProperties defs rev fetch props).2 = Except.error e) ∧
    (∀ snap, (loadProperties defs rev fetch props).2 = Except.ok snap →
      (∃ s, fetch "get_status" = Except.ok s) ∧
      (∃ c, fetch "get_consumable" = Except.ok c)) := by
  unfold loadProperties
  cases hs : fetch "get_status" <;> cases hc : fetch "get_consumable" <;> simp_all

/-- C7 witness: with an unreachable status source, the whole load fails with
the transport failure. -/
theorem C7_fetch_failure_witness :
    (loadProperties [] emptyRev statusFailFetch ["state"]).2 =
      Except.error "status unreachable" :=
  (C7_fetch_failure [] emptyRev statusFailFetch ["state"]).1
    "status unreachable" rfl

/-- C4: `activateCharging` first attempts `pause`; a stop command (the
`deactivateCleaning` fallback) is issued if and only if the pause attempt
failed; when the pause succeeded, and likewise when the fallback stop
succeeded, the trace continues with a 1000ms wait immediately followed by the
`"app_charge"` call whose result is validated by the generic `checkResult`
success check; and when pause and fallback both fail, the chain fails before
the wait. -/
theorem C4_activate_charging (env : String → Except String CallResult) :
    (activateCharging env).1.head? = some (Event.call "app_pause" ["state"] 1000) ∧
    ((Event.call "app_stop" ["state"] 1000 ∈ (activateCharging env).1) ↔
      ∃ e, (pause env).2 = Except.error e) ∧
    (∀ c, (pause env).2 = Except.ok c →
      (activateCharging env).1 =
        [Event.call "app_pause" ["state"] 1000, Event.wait 1000,
         Event.call "app_charge" ["state"] 1000] ∧
      (activateCharging env).2 = doCall env "app_charge") ∧
    (∀ e c, (pause env).2 = Except.error e →
      (deactivateCleaning env).2 = Except.ok c →
      (activateCharging env).1 =
        [Event.call "app_pause" ["state"] 1000, Event.call "app_stop" ["state"] 1000,
         Event.wait 1000, Event.call "app_charge" ["state"] 1000] ∧
      (activateCharging env).2 = doCall env "app_charge") ∧
    (∀ e e2, (pause env).2 = Except.error e →
      (deactivateCleaning env).2 = Except.error e2 →
      (activateCharging env).1 =
        [Event.call "app_pause" ["state"] 1000, Event.call "app_stop" ["state"] 1000] ∧
      (activateCharging env).2 = Except.error e2) := by
  unfold activateCharging pause deactivateCleaning
  cases hp : doCall env "app_pause" <;> cases hd : doCall env "app_stop" <;> simp_all

/-- C4 witness: in an environment where every call succeeds, the trace is
pause, 1000ms wait, charge, and the result is the validated charge result. -/
theorem C4_activate_charging_witness :
    (activateCharging allOkEnv).1 =
      [Event.call "app_pause" ["state"] 1000, Event.wait 1000,
       Event.call "app_charge" ["state"] 1000] ∧
    (activateCharging allOkEnv).2 = doCall allOkEnv "app_charge" :=
  (C4_activate_charging allOkEnv).2.2.1 ⟨true, 0⟩ rfl

/-- C9 counterexample: for the instant 10 seconds after the epoch, calling
`getHistoryForDay` with the `Date` argument and with the raw epoch-seconds
argument does not produce an equal result object: the `day` field echoes the
argument as given (a `Date` in one case, a number in the other). -/
theorem C9_counterexample :
    (getHistoryForDay sampleCleanRecords (DayValue.date 10000)).2 ≠
      (getHistoryForDay sampleCleanRecords (DayValue.epoch 10)).2 := by
  decide

/-- C9 (amended): for every instant `t` (epoch seconds), the `Date` call and
the epoch-seconds call issue the identical remote request and produce equal
`history` entries, but the result objects differ in their `day` field, which
echoes the argument as passed. -/
theorem C9_history_day_amended (fetch : Int → List (List Int)) (t : Int) :
    (getHistoryForDay fetch (DayValue.date (t * 1000))).1 =
      (getHistoryForDay fetch (DayValue.epoch t)).1 ∧
    (getHistoryForDay fetch (DayValue.date (t * 1000))).2.history =
      (getHistoryForDay fetch (DayValue.epoch t)).2.history ∧
    (getHistoryForDay fetch (DayValue.date (t * 1000))).2.day =
      DayValue.date (t * 1000) ∧
    (getHistoryForDay fetch (DayValue.epoch t)).2.day = DayValue.epoch t := by
  have hfd : Int.fdiv (t * 1000) 1000 = t := by
    rw [Int.mul_fdiv_cancel]
    norm_num
  refine ⟨?_, ?_, rfl, rfl⟩ <;> simp [getHistoryForDay, hfd]

end MiioVacuum

